import Mathlib

/-!
Verification of `detecto/visualize.py`.

A shallow embedding of the three entry points of `detecto.visualize`
(`detect_video`, `plot_prediction_grid`, `show_labeled_image`) together with
proofs of the testable properties stated in the specification.

Modelling conventions:
* Pixel coordinates and confidence scores are rationals (`ℚ`); the Python code
  computes with floats, but no claim under scrutiny depends on rounding of the
  floating-point representation itself.
* The external detector (`detecto.core.Model`) is opaque: a record of functions
  `predict` and `predict_top` producing three parallel lists
  `(labels, boxes, scores)`, exactly the tuple shape the Python call sites
  unpack with `zip(*predictions)`.
* Side effects (drawing a rectangle or text onto a frame with `cv2.rectangle` /
  `cv2.putText`, adding a `matplotlib` patch to an axis, releasing a capture or
  writer) are reified as data: a frame carries the list of drawing operations
  applied to it, and a run of `detect_video` is a record of everything the call
  did before returning or raising.
-/

set_option autoImplicit false

namespace Detecto

/-- A drawing operation applied to a frame: `cv2.rectangle` stores the two
corner points, colour and thickness; `cv2.putText` stores the text, its anchor
position, the font scale, colour and thickness. -/
inductive DrawOp where
  | rect (p0 : ℚ × ℚ) (p1 : ℚ × ℚ) (color : ℕ × ℕ × ℕ) (thickness : ℕ)
  | text (s : String) (pos : ℚ × ℚ) (fontScale : ℕ) (color : ℕ × ℕ × ℕ) (thickness : ℕ)
  deriving DecidableEq, Repr

/-- A video frame: its pixel dimensions plus the list of drawing operations
that have been applied to it in order (the pixel payload itself is opaque and
irrelevant to every claim). -/
structure Frame where
  width : ℕ
  height : ℕ
  drawn : List DrawOp
  deriving DecidableEq, Repr, Inhabited

/-- A bounding box `(x_min, y_min, x_max, y_max)` in pixel coordinates, the
four entries of one row of the detector's `boxes` tensor. -/
structure Box where
  x0 : ℚ
  y0 : ℚ
  x1 : ℚ
  y1 : ℚ
  deriving DecidableEq, Repr, Inhabited

/-- The detector's output tuple `(labels, boxes, scores)`: three parallel
lists, one entry per detected object. -/
structure Predictions where
  labels : List String
  boxes : List Box
  scores : List ℚ
  deriving DecidableEq, Repr, Inhabited

/-- The triples iterated over by `for label, box, score in zip(*predictions)`,
that is, `zip(*predictions)`.  Like Python's `zip`, `List.zip`
truncates to the shortest of the three lists. -/
def Predictions.zipped (p : Predictions) : List (String × Box × ℚ) :=
  p.labels.zip (p.boxes.zip p.scores)

/-- Python's `round(x, 2)` on the score before it is printed.  (Python rounds
half to even on the underlying float; no claim depends on behaviour at exact
ties, so the standard `round` on `ℚ` stands in for it.) -/
def round2 (q : ℚ) : ℚ :=
  (round (q * 100) : ℤ) / 100

/-- The annotation text `'{}: {}'.format(label, round(score.item(), 2))`. -/
def labelText (label : String) (score : ℚ) : String :=
  label ++ ": " ++ toString (round2 score)

/-! ## `show_labeled_image` (single-image overlay)

`show_labeled_image(image, boxes)` draws one unfilled rectangle per box on top
of the displayed image.  `boxes` is a torch tensor, either 1-dimensional
(a single box of 4 scalars) or of shape `(N, 4)`; a 1-dimensional tensor is
reshaped with `boxes.view(1, 4)`, which raises unless it has exactly 4
elements.  We model the tensor as either a flat list of scalars or a list of
rows, and a raised reshape error as `none`. -/

/-- A `boxes` argument to `show_labeled_image`: a 1-dimensional tensor
(`ndim == 1`) of scalars, or a 2-dimensional tensor given by its rows. -/
inductive BoxesTensor where
  | dim1 (xs : List ℚ)
  | dim2 (rows : List (List ℚ))
  deriving DecidableEq, Repr

/-- Reshaping a 1-dimensional tensor with `boxes.view(1, 4)`: succeeds with a single-row
2-dimensional tensor exactly when the tensor has 4 elements, otherwise torch
raises a shape error. -/
def tensorView14 (xs : List ℚ) : Option (List (List ℚ)) :=
  if xs.length = 4 then some [xs] else none

/-- A `matplotlib.patches.Rectangle(initial_pos, width, height, ...)` patch:
anchor position, width and height. -/
structure Rect where
  pos : ℚ × ℚ
  width : ℚ
  height : ℚ
  deriving DecidableEq, Repr, Inhabited

/-- The rectangle built from one box row `box`:
`width, height = box[2] - box[0], box[3] - box[1]` anchored at
`(box[0], box[1])`.  (Out-of-range indices default to 0; they are never
exercised on shape-`(N, 4)` input.) -/
def boxRect (box : List ℚ) : Rect :=
  { pos := (box.getD 0 0, box.getD 1 0)
    width := box.getD 2 0 - box.getD 0 0
    height := box.getD 3 0 - box.getD 1 0 }

/-- The figure produced by `show_labeled_image`: the displayed image and the
rectangle patches added to the axis, in drawing order. -/
structure LabeledFigure (α : Type) where
  image : α
  rects : List Rect
  deriving DecidableEq, Repr

/-- Embedding of `show_labeled_image(image, boxes)`.  The image is shown as-is (the
tensor-to-PIL conversion is an external, display-only concern); a
1-dimensional `boxes` is reshaped via `view(1, 4)` (which can raise, giving
`none`); then one rectangle per row is added in row order. -/
def show_labeled_image {α : Type} (image : α) (boxes : BoxesTensor) :
    Option (LabeledFigure α) :=
  match boxes with
  | .dim1 xs =>
    match tensorView14 xs with
    | none => none
    | some rows => some { image := image, rects := rows.map boxRect }
  | .dim2 rows => some { image := image, rects := rows.map boxRect }

/-! ## `detect_video` (video annotator)

`detect_video(model, input_file, output_file, fps)` opens the source with
`cv2.VideoCapture`, reads its frame dimensions, computes
`scale_down_factor = min(frame_height, frame_width) / scaled_size` with
`scaled_size = 800`, constructs the `cv2.VideoWriter` sink, then loops: read a
frame (stop on `ret == False`), run `model.predict_top` on the transformed
frame, scale each returned box up by `scale_down_factor`, draw a rectangle and
a label text onto the original frame, write the frame to the sink, and break
early if `cv2.waitKey(1) & 0xFF` is `ord('q')`.  After the loop both resources
are released and all windows destroyed — but only on the paths that reach the
end of the function body: an exception raised by the detector propagates past
the release calls (there is no `try`/`finally`).

Externals are modelled as follows: an unopenable source behaves exactly as
`cv2.VideoCapture` does — frame-dimension properties read as 0 and every
`read()` returns `ret == False` — so the source argument is
`Option VideoData`, with `none` for an unopenable path.  The key-event stream
consumed by `cv2.waitKey(1)` is a list of non-negative return values, one
consulted per loop iteration; when it is exhausted, `waitKey` keeps returning
-1, whose low byte (`& 0xFF`) is 255.  A detector-call error is `Except.error`.
The composed per-frame transform (`ToPILImage`, `Resize(800)`, `ToTensor`,
`normalize_transform()`) is an opaque external function passed as
`transform_frame`. -/

/-- The detector consumed by `detect_video`: the `predict_top` method, which
may raise (a detector-call error, propagated by this layer). -/
structure VideoModel where
  predict_top : Frame → Except String Predictions

/-- An opened video source: the dimension properties reported by
`cv2.CAP_PROP_FRAME_WIDTH` / `cv2.CAP_PROP_FRAME_HEIGHT` and the frames
`read()` yields in order. -/
structure VideoData where
  width : ℕ
  height : ℕ
  frames : List Frame
  deriving DecidableEq, Repr, Inhabited

/-- Effect of `cv2.rectangle(frame, p0, p1, color, thickness)`: draws in place, i.e.
appends a drawing operation to the frame, leaving its dimensions unchanged. -/
def cvRectangle (frame : Frame) (p0 p1 : ℚ × ℚ) (color : ℕ × ℕ × ℕ)
    (thickness : ℕ) : Frame :=
  { frame with drawn := frame.drawn ++ [.rect p0 p1 color thickness] }

/-- Effect of `cv2.putText(frame, s, pos, font, fontScale, color, thickness)`: draws in
place, leaving the frame's dimensions unchanged. -/
def cvPutText (frame : Frame) (s : String) (pos : ℚ × ℚ) (fontScale : ℕ)
    (color : ℕ × ℕ × ℕ) (thickness : ℕ) : Frame :=
  { frame with drawn := frame.drawn ++ [.text s pos fontScale color thickness] }

/-- Semantics of `box *= scale_down_factor`: every coordinate of the box tensor is
multiplied by the factor. -/
def scaleBox (factor : ℚ) (b : Box) : Box :=
  { x0 := b.x0 * factor, y0 := b.y0 * factor
    x1 := b.x1 * factor, y1 := b.y1 * factor }

/-- The body of `for label, box, score in zip(*predictions)` in
`detect_video`: scale the box up, draw the rectangle
`cv2.rectangle(frame, (box[0], box[1]), (box[2], box[3]), (255, 0, 0), 3)`,
then the text
`cv2.putText(frame, '{}: {}'..., (box[0], box[1] - 10), ..., 1, (255, 0, 0), 3)`. -/
def annotateFrame (factor : ℚ) (predictions : Predictions) (frame : Frame) :
    Frame :=
  predictions.zipped.foldl
    (fun fr p =>
      match p with
      | (label, box, score) =>
        let box := scaleBox factor box
        let fr := cvRectangle fr (box.x0, box.y0) (box.x1, box.y1) (255, 0, 0) 3
        cvPutText fr (labelText label score) (box.x0, box.y0 - 10) 1 (255, 0, 0) 3)
    frame

/-- How a `detect_video` call ended: normal exhaustion of the source, early
quit on the `'q'` key, or an exception propagated out of the call. -/
inductive ExitKind where
  | normal
  | quitKey
  | raised (e : String)
  deriving DecidableEq, Repr

/-- Everything one call of `detect_video` did: whether the sink was created,
the computed `scale_down_factor`, how many frames were successfully read
(`ret == True`), the frames passed to `out.write` in order, which release
calls ran, and how the call ended. -/
structure VideoRun where
  sinkCreated : Bool
  scaleFactor : ℚ
  framesRead : ℕ
  written : List Frame
  sourceReleased : Bool
  sinkReleased : Bool
  windowsDestroyed : Bool
  exit : ExitKind
  deriving DecidableEq, Repr

/-- The `while True` loop of `detect_video`.  Arguments: remaining source
frames, remaining key events, frames written so far, frames read so far.
Returns the written frames, the read count, and `.ok quit?` on a `break`
(`quit?` tells the two `break`s apart) or `.error e` when the detector call
raised inside the loop. -/
def videoLoop (model : VideoModel) (transform_frame : Frame → Frame)
    (factor : ℚ) :
    List Frame → List ℕ → List Frame → ℕ → List Frame × ℕ × Except String Bool
  | [], _, written, nread => (written, nread, .ok false)
  | frame :: rest, keys, written, nread =>
    match model.predict_top (transform_frame frame) with
    | .error e => (written, nread + 1, .error e)
    | .ok predictions =>
      let annotated := annotateFrame factor predictions frame
      let written := written ++ [annotated]
      let key := keys.headD 255 % 256
      if key = 113 then (written, nread + 1, .ok true)
      else videoLoop model transform_frame factor rest keys.tail written (nread + 1)

/-- Embedding of `detect_video(model, input_file, output_file, fps)`.  The output path and
fps only configure the sink and affect no claim, so they are omitted; the
sink is created unconditionally before the loop. -/
def detect_video (model : VideoModel) (transform_frame : Frame → Frame)
    (input : Option VideoData) (keys : List ℕ) : VideoRun :=
  let frame_width := (input.map VideoData.width).getD 0
  let frame_height := (input.map VideoData.height).getD 0
  let scaled_size : ℚ := 800
  let scale_down_factor : ℚ := ((min frame_height frame_width : ℕ) : ℚ) / scaled_size
  let frames := (input.map VideoData.frames).getD []
  match videoLoop model transform_frame scale_down_factor frames keys [] 0 with
  | (written, nread, .ok quit) =>
    { sinkCreated := true, scaleFactor := scale_down_factor,
      framesRead := nread, written := written
      sourceReleased := true, sinkReleased := true, windowsDestroyed := true
      exit := if quit then .quitKey else .normal }
  | (written, nread, .error e) =>
    { sinkCreated := true, scaleFactor := scale_down_factor,
      framesRead := nread, written := written
      sourceReleased := false, sinkReleased := false, windowsDestroyed := false
      exit := .raised e }

/-! ## `plot_prediction_grid` (grid renderer)

`plot_prediction_grid(model, images, dim, figsize)` defaults `dim` to
`(len(images), 1)`, raises
`ValueError('Grid dimensions do not match size of list of images')` when
`dim[0] * dim[1] != len(images)`, then walks the grid in row-major order with
a counter `index`: each cell runs `model.predict_top(images[index])`, shows
the image (a tensor is first reverse-normalized and converted — an external
display-only map, passed here as `display`), and for each returned
`(label, box, score)` adds a rectangle patch, a text, and sets the cell title
`'Image {index}'` with the already-incremented counter.  Note `set_title` is
inside the per-prediction loop.  `figsize` affects no claim and is omitted. -/

/-- The detector consumed by `plot_prediction_grid`, with images of an opaque
type `α`: both methods of `detecto.core.Model` used by the visualize module,
each returning the `(labels, boxes, scores)` tuple. -/
structure GridModel (α : Type) where
  predict : α → Predictions
  predict_top : α → Predictions

/-- The rectangle patch drawn in `plot_prediction_grid` for one box:
`width, height = box[2] - box[0], box[3] - box[1]` anchored at
`(box[0], box[1])`. -/
def gridBoxRect (b : Box) : Rect :=
  { pos := (b.x0, b.y0), width := b.x1 - b.x0, height := b.y1 - b.y0 }

/-- The overlays accumulating on one grid cell's axis: rectangle patches,
texts with their positions, and the title (last `set_title` wins). -/
structure CellRender where
  rects : List Rect
  texts : List (String × ℚ × ℚ)
  title : Option String
  deriving DecidableEq, Repr, Inhabited

/-- The loop `for label, box, score in zip(*preds)` of one grid cell: per
prediction, add the rectangle patch, add the text
`'{}: {}'.format(label, round(score.item(), 2))` at
`(box[0] + 5, box[1] - 10)`, and set the title `'Image {index}'` (with the
1-based `index`).  A cell with no predictions gets no patch, no text and no
title. -/
def renderPreds (preds : Predictions) (index : ℕ) : CellRender :=
  preds.zipped.foldl
    (fun c p =>
      match p with
      | (label, box, score) =>
        { rects := c.rects ++ [gridBoxRect box]
          texts := c.texts ++ [(labelText label score, box.x0 + 5, box.y0 - 10)]
          title := some ("Image " ++ toString index) })
    { rects := [], texts := [], title := none }

/-- One cell of the rendered grid: its grid position, the image detection ran
on (`images[index]`), what `ax.imshow` received, and the overlays. -/
structure GridCell (α : Type) where
  row : ℕ
  col : ℕ
  image : α
  shown : α
  render : CellRender
  deriving DecidableEq, Repr, Inhabited

/-- The nested loops `for i in range(dim[0]): for j in range(dim[1])` visit
these positions in row-major order. -/
def gridPositions (r c : ℕ) : List (ℕ × ℕ) :=
  (List.range r).flatMap fun i => (List.range c).map fun j => (i, j)

/-- The grid loop body, threading the mutable counter `index` (0-based here;
it is incremented before the title is formatted, so titles are 1-based). -/
def gridCellsAux {α : Type} [Inhabited α] (model : GridModel α)
    (display : α → α) (images : List α) :
    List (ℕ × ℕ) → ℕ → List (GridCell α)
  | [], _ => []
  | (i, j) :: rest, index =>
    let image := images.getD index default
    let preds := model.predict_top image
    { row := i, col := j, image := image, shown := display image
      render := renderPreds preds (index + 1) }
      :: gridCellsAux model display images rest (index + 1)

/-- Embedding of `plot_prediction_grid(model, images, dim, figsize)`: `.error` is the
raised `ValueError`, `.ok` the list of rendered cells in row-major order. -/
def plot_prediction_grid {α : Type} [Inhabited α] (model : GridModel α)
    (display : α → α) (images : List α) (dim : Option (ℕ × ℕ)) :
    Except String (List (GridCell α)) :=
  let dim := dim.getD (images.length, 1)
  if dim.1 * dim.2 ≠ images.length then
    .error "Grid dimensions do not match size of list of images"
  else
    .ok (gridCellsAux model display images (gridPositions dim.1 dim.2) 0)

/-! ## Auxiliary definitions for stating the properties -/

/-- The two drawing operations `detect_video` performs for one prediction
triple: the rectangle at the scaled-up box corners, then the label text just
above its top-left corner. -/
def drawOps (factor : ℚ) (p : String × Box × ℚ) : List DrawOp :=
  [DrawOp.rect ((scaleBox factor p.2.1).x0, (scaleBox factor p.2.1).y0)
     ((scaleBox factor p.2.1).x1, (scaleBox factor p.2.1).y1) (255, 0, 0) 3,
   DrawOp.text (labelText p.1 p.2.2)
     ((scaleBox factor p.2.1).x0, (scaleBox factor p.2.1).y0 - 10) 1 (255, 0, 0) 3]

/-- The coordinate map of the `Resize(scaled_size)` downscaling applied to a
box: original-frame coordinates are divided by the downscale factor to reach
the detector's coordinate space.  Its inverse (multiplication by the factor,
i.e. `scaleBox`) maps detector coordinates back to original-frame space. -/
def downscaleBox (factor : ℚ) (b : Box) : Box :=
  { x0 := b.x0 / factor, y0 := b.y0 / factor
    x1 := b.x1 / factor, y1 := b.y1 / factor }

/-! ## Concrete sample data used by witnesses and counterexamples -/

/-- A sample bounding box. -/
def sampleBox : Box := { x0 := 3, y0 := 4, x1 := 10, y1 := 12 }

/-- A second sample bounding box, distinct from `sampleBox`. -/
def sampleBox2 : Box := { x0 := 20, y0 := 20, x1 := 30, y1 := 30 }

/-- A sample one-object detector output. -/
def samplePreds : Predictions :=
  { labels := ["cat"], boxes := [sampleBox], scores := [9/10] }

/-- A sample unannotated source frame. -/
def sampleFrame : Frame := { width := 640, height := 480, drawn := [] }

/-- A sample opened two-frame video source. -/
def sampleVideo : VideoData :=
  { width := 640, height := 480, frames := [sampleFrame, sampleFrame] }

/-- A video detector that always succeeds with `samplePreds`. -/
def vmOk : VideoModel := { predict_top := fun _ => .ok samplePreds }

/-- A video detector whose call always raises. -/
def vmFail : VideoModel := { predict_top := fun _ => .error "detector failure" }

/-- A grid detector (over opaque images numbered by `ℕ`) for which full
detection (`predict`) returns two objects while `predict_top` returns only the
top one per class: the two methods disagree observably. -/
def gmTwo : GridModel ℕ :=
  { predict := fun _ =>
      { labels := ["cat", "cat"], boxes := [sampleBox, sampleBox2]
        scores := [9/10, 8/10] }
    predict_top := fun _ =>
      { labels := ["cat"], boxes := [sampleBox], scores := [9/10] } }

/-- A grid detector that detects nothing in any image. -/
def gmNone : GridModel ℕ :=
  { predict := fun _ => { labels := [], boxes := [], scores := [] }
    predict_top := fun _ => { labels := [], boxes := [], scores := [] } }

/-! ## Helper lemmas -/

theorem headD_eq_getD_zero (l : List ℕ) (d : ℕ) : l.headD d = l.getD 0 d := by
  cases l <;> rfl

theorem tail_getD (l : List ℕ) (k d : ℕ) : l.tail.getD k d = l.getD (k + 1) d := by
  cases l <;> simp

/-- Folding the per-prediction drawing step of `detect_video` over a list of
triples appends the corresponding drawing operations and changes nothing
else about the frame. -/
theorem annotateFold (factor : ℚ) (l : List (String × Box × ℚ)) (fr : Frame) :
    (l.foldl
      (fun fr p =>
        match p with
        | (label, box, score) =>
          let box := scaleBox factor box
          let fr := cvRectangle fr (box.x0, box.y0) (box.x1, box.y1) (255, 0, 0) 3
          cvPutText fr (labelText label score) (box.x0, box.y0 - 10) 1 (255, 0, 0) 3)
      fr) =
      { fr with drawn := fr.drawn ++ l.flatMap (drawOps factor) } := by
  induction l generalizing fr with
  | nil => simp
  | cons p rest ih =>
    obtain ⟨label, box, score⟩ := p
    rw [List.foldl_cons, ih]
    simp [cvRectangle, cvPutText, drawOps, scaleBox]

/-- `annotateFrame` appends exactly the drawing operations of the prediction
triples, preserving the frame's dimensions. -/
theorem annotateFrame_eq (factor : ℚ) (preds : Predictions) (fr : Frame) :
    annotateFrame factor preds fr =
      { fr with drawn := fr.drawn ++ preds.zipped.flatMap (drawOps factor) } := by
  unfold annotateFrame
  exact annotateFold factor preds.zipped fr

theorem annotateFrame_width (factor : ℚ) (preds : Predictions) (fr : Frame) :
    (annotateFrame factor preds fr).width = fr.width := by
  rw [annotateFrame_eq]

theorem annotateFrame_height (factor : ℚ) (preds : Predictions) (fr : Frame) :
    (annotateFrame factor preds fr).height = fr.height := by
  rw [annotateFrame_eq]

/-- Characterization of one grid cell's overlays: one rectangle patch and one
text per prediction triple, in order, and a title exactly when there is at
least one prediction (the last `set_title` of the loop wins, and every
iteration sets the same string). -/
theorem renderPreds_eq (preds : Predictions) (index : ℕ) :
    renderPreds preds index =
      { rects := preds.zipped.map fun p => gridBoxRect p.2.1
        texts := preds.zipped.map fun p =>
          (labelText p.1 p.2.2, p.2.1.x0 + 5, p.2.1.y0 - 10)
        title := if preds.zipped.isEmpty then none
          else some ("Image " ++ toString index) } := by
  unfold renderPreds
  have main : ∀ (l : List (String × Box × ℚ)) (c : CellRender),
      (l.foldl
        (fun c p =>
          match p with
          | (label, box, score) =>
            { rects := c.rects ++ [gridBoxRect box]
              texts := c.texts ++ [(labelText label score, box.x0 + 5, box.y0 - 10)]
              title := some ("Image " ++ toString index) })
        c) =
        { rects := c.rects ++ l.map fun p => gridBoxRect p.2.1
          texts := c.texts ++ l.map fun p =>
            (labelText p.1 p.2.2, p.2.1.x0 + 5, p.2.1.y0 - 10)
          title := if l.isEmpty then c.title
            else some ("Image " ++ toString index) } := by
    intro l
    induction l with
    | nil => intro c; simp
    | cons p rest ih =>
      intro c
      obtain ⟨label, box, score⟩ := p
      rw [List.foldl_cons, ih]
      by_cases hrest : rest.isEmpty <;> simp [hrest]
  rw [main]
  simp

theorem gridPositions_succ (r c : ℕ) :
    gridPositions (r + 1) c =
      gridPositions r c ++ (List.range c).map fun j => (r, j) := by
  simp [gridPositions, List.range_succ]

theorem gridPositions_length (r c : ℕ) : (gridPositions r c).length = r * c := by
  induction r with
  | zero => simp [gridPositions]
  | succ n ih => simp [gridPositions_succ, ih, Nat.succ_mul]

theorem gridCellsAux_length {α : Type} [Inhabited α] (model : GridModel α)
    (display : α → α) (images : List α) (ps : List (ℕ × ℕ)) (index : ℕ) :
    (gridCellsAux model display images ps index).length = ps.length := by
  induction ps generalizing index with
  | nil => rfl
  | cons p rest ih =>
    obtain ⟨i, j⟩ := p
    simp [gridCellsAux, ih]

/-- The `k`-th cell produced by the grid loop started at counter `index`:
position `ps[k]`, image `images[index + k]`, detection on that image, title
counter `index + k + 1`. -/
theorem gridCellsAux_getD {α : Type} [Inhabited α] (model : GridModel α)
    (display : α → α) (images : List α) (ps : List (ℕ × ℕ)) (index k : ℕ)
    (hk : k < ps.length) :
    (gridCellsAux model display images ps index).getD k default =
      { row := (ps.getD k (0, 0)).1, col := (ps.getD k (0, 0)).2
        image := images.getD (index + k) default
        shown := display (images.getD (index + k) default)
        render := renderPreds (model.predict_top (images.getD (index + k) default))
          (index + k + 1) } := by
  induction ps generalizing index k with
  | nil => simp at hk
  | cons p rest ih =>
    obtain ⟨i, j⟩ := p
    cases k with
    | zero => simp [gridCellsAux]
    | succ m =>
      have hm : m < rest.length := by
        simpa using Nat.lt_of_succ_lt_succ hk
      have := ih (index + 1) m hm
      simp only [gridCellsAux, List.getD_cons_succ, this]
      have harith : index + 1 + m = index + (m + 1) := by omega
      rw [harith]

/-- A run of the video loop that ends by exhausting the source (`ret` false,
`.ok false`) read every source frame, and appended to `written` exactly one
annotated frame per source frame, in source order. -/
theorem videoLoop_ok_false (model : VideoModel) (tf : Frame → Frame) (factor : ℚ)
    (frames : List Frame) :
    ∀ (keys : List ℕ) (written w : List Frame) (n m : ℕ),
      videoLoop model tf factor frames keys written n = (w, m, .ok false) →
      m = n + frames.length ∧
      ∃ anns, w = written ++ anns ∧ anns.length = frames.length ∧
        ∀ k, k < frames.length →
          ∃ p, model.predict_top (tf (frames.getD k default)) = .ok p ∧
            anns.getD k default = annotateFrame factor p (frames.getD k default) := by
  induction frames with
  | nil =>
    intro keys written w n m h
    simp only [videoLoop, Prod.mk.injEq] at h
    obtain ⟨hw, hm, -⟩ := h
    exact ⟨by simp; omega, [], by simp [hw], rfl, by intro k hk; simp at hk⟩
  | cons frame rest ih =>
    intro keys written w n m h
    simp only [videoLoop] at h
    cases hp : model.predict_top (tf frame) with
    | error e => rw [hp] at h; simp at h
    | ok preds =>
      rw [hp] at h
      dsimp only at h
      split at h
      · simp at h
      · obtain ⟨hm, anns, hw, hlen, hidx⟩ := ih keys.tail
          (written ++ [annotateFrame factor preds frame]) w (n + 1) m h
        refine ⟨by simp; omega,
          annotateFrame factor preds frame :: anns, by simp [hw], by simp [hlen], ?_⟩
        intro k hk
        cases k with
        | zero => exact ⟨preds, by simpa using hp, by simp⟩
        | succ k' =>
          have hk' : k' < rest.length := by simpa using Nat.lt_of_succ_lt_succ hk
          obtain ⟨p, hp', ha'⟩ := hidx k' hk'
          exact ⟨p, by simpa using hp', by simpa using ha'⟩

/-- A run of the video loop that ends on the quit key (`.ok true`) stopped at
the first consumed quit key event: it read exactly the frames up to and
including that iteration and no further frame. -/
theorem videoLoop_ok_true (model : VideoModel) (tf : Frame → Frame) (factor : ℚ)
    (frames : List Frame) :
    ∀ (keys : List ℕ) (written w : List Frame) (n m : ℕ),
      videoLoop model tf factor frames keys written n = (w, m, .ok true) →
      ∃ k, m = n + k + 1 ∧ k < frames.length ∧
        keys.getD k 255 % 256 = 113 ∧
        ∀ j, j < k → keys.getD j 255 % 256 ≠ 113 := by
  induction frames with
  | nil =>
    intro keys written w n m h
    simp only [videoLoop, Prod.mk.injEq] at h
    exact absurd h.2.2 (by simp)
  | cons frame rest ih =>
    intro keys written w n m h
    simp only [videoLoop] at h
    cases hp : model.predict_top (tf frame) with
    | error e => rw [hp] at h; simp at h
    | ok preds =>
      rw [hp] at h
      dsimp only at h
      split at h
      case isTrue hkey =>
        refine ⟨0, ?_, by simp, ?_, by omega⟩
        · simp only [Prod.mk.injEq] at h; omega
        · rwa [← headD_eq_getD_zero]
      case isFalse hkey =>
        obtain ⟨k', hm, hk', hquit, hbefore⟩ := ih keys.tail
          (written ++ [annotateFrame factor preds frame]) w (n + 1) m h
        refine ⟨k' + 1, by omega, by simpa using Nat.succ_lt_succ hk',
          by rwa [← tail_getD], ?_⟩
        intro j hj
        cases j with
        | zero => rwa [← headD_eq_getD_zero]
        | succ j' =>
          rw [← tail_getD]
          exact hbefore j' (by omega)

/-! ## Claim theorems -/

/-- Claim C6: for a single-box input of shape `(4,)`, `show_labeled_image`
normalizes it into a 1-box collection and draws exactly one rectangle, with
width `box[2] - box[0]` and height `box[3] - box[1]` anchored at
`(box[0], box[1])`; for an `N × 4` input it draws exactly `N` rectangles, one
per row, preserving input order. -/
theorem show_labeled_image_rect_shapes {α : Type} (image : α) (xs : List ℚ)
    (rows : List (List ℚ)) (h4 : xs.length = 4) :
    show_labeled_image image (BoxesTensor.dim1 xs) =
      some { image := image, rects := [boxRect xs] } ∧
    boxRect xs =
      { pos := (xs.getD 0 0, xs.getD 1 0)
        width := xs.getD 2 0 - xs.getD 0 0
        height := xs.getD 3 0 - xs.getD 1 0 } ∧
    show_labeled_image image (BoxesTensor.dim2 rows) =
      some { image := image, rects := rows.map boxRect } ∧
    (rows.map boxRect).length = rows.length := by
  refine ⟨?_, rfl, rfl, by simp⟩
  simp [show_labeled_image, tensorView14, h4]

/-- Witness for C6 at a concrete single box and a concrete 2-row box list. -/
theorem show_labeled_image_rect_shapes_witness :
    show_labeled_image (0 : ℕ) (BoxesTensor.dim1 [3, 4, 10, 12]) =
      some { image := 0, rects := [boxRect [3, 4, 10, 12]] } ∧
    boxRect [3, 4, 10, 12] =
      { pos := ([(3 : ℚ), 4, 10, 12].getD 0 0, [(3 : ℚ), 4, 10, 12].getD 1 0)
        width := [(3 : ℚ), 4, 10, 12].getD 2 0 - [(3 : ℚ), 4, 10, 12].getD 0 0
        height := [(3 : ℚ), 4, 10, 12].getD 3 0 - [(3 : ℚ), 4, 10, 12].getD 1 0 } ∧
    show_labeled_image (0 : ℕ) (BoxesTensor.dim2 [[0, 0, 2, 2], [1, 1, 3, 3]]) =
      some { image := 0, rects := [[0, 0, 2, 2], [1, 1, 3, 3]].map boxRect } ∧
    ([[(0 : ℚ), 0, 2, 2], [1, 1, 3, 3]].map boxRect).length =
      [[(0 : ℚ), 0, 2, 2], [1, 1, 3, 3]].length :=
  show_labeled_image_rect_shapes 0 [3, 4, 10, 12] [[0, 0, 2, 2], [1, 1, 3, 3]]
    (by decide)

/-- Claim C10: a 1-dimensional `boxes` input makes `show_labeled_image` fail
at the `view(1, 4)` reshape — before any rectangle is drawn — exactly when its
element count is not 4; the no-error branch is reachable only with exactly 4
elements. -/
theorem show_labeled_image_dim1_guard {α : Type} (image : α) (xs : List ℚ) :
    show_labeled_image image (BoxesTensor.dim1 xs) = none ↔ xs.length ≠ 4 := by
  by_cases h : xs.length = 4 <;> simp [show_labeled_image, tensorView14, h]

/-- Witness for C10: a 3-element 1-dimensional input fails. -/
theorem show_labeled_image_dim1_guard_witness :
    show_labeled_image (0 : ℕ) (BoxesTensor.dim1 [1, 2, 3]) = none :=
  (show_labeled_image_dim1_guard 0 [1, 2, 3]).mpr (by decide)

/-- Claim C5: if the downscale factor equals 1 (the source's short side is
already at the target size) the rescaling `box *= scale_down_factor` is the
identity, and the coordinates drawn by the annotation step equal the
detector's raw output coordinates. -/
theorem detect_video_rescale_identity (factor : ℚ) (b : Box)
    (preds : Predictions) (fr : Frame) (h1 : factor = 1) :
    scaleBox factor b = b ∧
    (annotateFrame factor preds fr).drawn =
      fr.drawn ++ preds.zipped.flatMap (fun p =>
        [DrawOp.rect (p.2.1.x0, p.2.1.y0) (p.2.1.x1, p.2.1.y1) (255, 0, 0) 3,
         DrawOp.text (labelText p.1 p.2.2) (p.2.1.x0, p.2.1.y0 - 10) 1
           (255, 0, 0) 3]) := by
  subst h1
  constructor
  · cases b
    simp [scaleBox]
  · rw [annotateFrame_eq]
    have hfun : drawOps (1 : ℚ) = fun p : String × Box × ℚ =>
        [DrawOp.rect (p.2.1.x0, p.2.1.y0) (p.2.1.x1, p.2.1.y1) (255, 0, 0) 3,
         DrawOp.text (labelText p.1 p.2.2) (p.2.1.x0, p.2.1.y0 - 10) 1
           (255, 0, 0) 3] :=
      funext fun p => by simp [drawOps, scaleBox]
    rw [hfun]

/-- Witness for C5 at factor 1 and concrete sample data. -/
theorem detect_video_rescale_identity_witness :
    scaleBox 1 sampleBox = sampleBox ∧
    (annotateFrame 1 samplePreds sampleFrame).drawn =
      sampleFrame.drawn ++ samplePreds.zipped.flatMap (fun p =>
        [DrawOp.rect (p.2.1.x0, p.2.1.y0) (p.2.1.x1, p.2.1.y1) (255, 0, 0) 3,
         DrawOp.text (labelText p.1 p.2.2) (p.2.1.x0, p.2.1.y0 - 10) 1
           (255, 0, 0) 3]) :=
  detect_video_rescale_identity 1 sampleBox samplePreds sampleFrame rfl

/-- Claim C8: on an unopenable source (`cv2.VideoCapture` reports dimension 0
and `read()` never succeeds) `detect_video` raises nothing in this layer: it
still creates the output sink, reads zero frames, writes zero frames, and
returns normally with both resources released. -/
theorem detect_video_unopenable (model : VideoModel) (tf : Frame → Frame)
    (keys : List ℕ) :
    detect_video model tf none keys =
      { sinkCreated := true, scaleFactor := 0, framesRead := 0, written := []
        sourceReleased := true, sinkReleased := true, windowsDestroyed := true
        exit := ExitKind.normal } := by
  simp [detect_video, videoLoop]

/-- Claim C4: the downscale factor computed by `detect_video` equals
`min(source_height, source_width) / 800`; the annotation step draws, for each
box the detector returned, exactly the box rescaled by the factor
(`box *= scale_down_factor`); and this rescaling is the inverse of the
downscale coordinate map, so downscaling a drawn box recovers the raw
detector output — the drawn coordinates lie in original-frame pixel space. -/
theorem detect_video_scale_factor (model : VideoModel) (tf : Frame → Frame)
    (input : Option VideoData) (keys : List ℕ) (factor : ℚ) (b : Box)
    (preds : Predictions) (fr : Frame) (hf : factor ≠ 0) :
    (detect_video model tf input keys).scaleFactor =
      ((min ((input.map VideoData.height).getD 0)
        ((input.map VideoData.width).getD 0) : ℕ) : ℚ) / 800 ∧
    (annotateFrame factor preds fr).drawn =
      fr.drawn ++ preds.zipped.flatMap (drawOps factor) ∧
    downscaleBox factor (scaleBox factor b) = b := by
  refine ⟨?_, by rw [annotateFrame_eq], ?_⟩
  · rcases hv : videoLoop model tf
        (((min ((input.map VideoData.height).getD 0)
          ((input.map VideoData.width).getD 0) : ℕ) : ℚ) / 800)
        ((input.map VideoData.frames).getD []) keys [] 0 with ⟨w, m, res⟩
    cases res <;> (simp only [detect_video]; rw [hv])
  · cases b
    simp only [downscaleBox, scaleBox]
    field_simp

/-- Witness for C4 at a concrete source and a concrete nonzero factor. -/
theorem detect_video_scale_factor_witness :
    (detect_video vmOk id (some sampleVideo) []).scaleFactor =
      ((min (((some sampleVideo).map VideoData.height).getD 0)
        (((some sampleVideo).map VideoData.width).getD 0) : ℕ) : ℚ) / 800 ∧
    (annotateFrame 2 samplePreds sampleFrame).drawn =
      sampleFrame.drawn ++ samplePreds.zipped.flatMap (drawOps 2) ∧
    downscaleBox 2 (scaleBox 2 sampleBox) = sampleBox :=
  detect_video_scale_factor vmOk id (some sampleVideo) [] 2 sampleBox
    samplePreds sampleFrame (by norm_num)

/-- Claim C1: with a layout `(r, c)` whose product matches the image count,
`plot_prediction_grid` raises no layout error and processes exactly `N`
images (one cell per image, in order, detection running on `images[k]`); with
a mismatched layout it raises the `ValueError` — uniformly in the model, so
before any detection call is made, and the raised error carries no rendered
output. -/
theorem plot_prediction_grid_layout {α : Type} [Inhabited α]
    (model : GridModel α) (display : α → α) (images : List α) (r c : ℕ) :
    (r * c = images.length →
      ∃ cells, plot_prediction_grid model display images (some (r, c)) =
          .ok cells ∧
        cells.length = images.length ∧
        ∀ k, k < images.length →
          (cells.getD k default).image = images.getD k default) ∧
    (r * c ≠ images.length →
      plot_prediction_grid model display images (some (r, c)) =
        .error "Grid dimensions do not match size of list of images") := by
  constructor
  · intro heq
    refine ⟨gridCellsAux model display images (gridPositions r c) 0, ?_, ?_, ?_⟩
    · simp [plot_prediction_grid, heq]
    · rw [gridCellsAux_length, gridPositions_length, heq]
    · intro k hk
      have hk' : k < (gridPositions r c).length := by
        rw [gridPositions_length, heq]; exact hk
      rw [gridCellsAux_getD model display images _ 0 k hk']
      simp
  · intro hne
    simp [plot_prediction_grid, hne]

/-- Witness for C1: a matching layout `(1, 2)` succeeds on two images and a
mismatched `(2, 2)` raises the `ValueError`. -/
theorem plot_prediction_grid_layout_witness :
    (∃ cells, plot_prediction_grid gmTwo id [5, 6] (some (1, 2)) = .ok cells ∧
      cells.length = [5, 6].length ∧
      ∀ k, k < [5, 6].length →
        (cells.getD k default).image = [5, 6].getD k default) ∧
    plot_prediction_grid gmTwo id [5, 6] (some (2, 2)) =
      .error "Grid dimensions do not match size of list of images" :=
  ⟨(plot_prediction_grid_layout gmTwo id [5, 6] 1 2).1 (by decide),
   (plot_prediction_grid_layout gmTwo id [5, 6] 2 2).2 (by decide)⟩

/-- Claim C2 counterexample: the grid renderer does not run full detection.
On a detector whose `predict` returns two boxes but whose `predict_top`
returns one, the rendered cell overlays exactly the one `predict_top` box,
which differs from the boxes full detection returns. -/
theorem plot_prediction_grid_full_detection_cex :
    (plot_prediction_grid gmTwo id [0] (some (1, 1))).map
        (fun cells => cells.map fun cell => cell.render.rects) =
      .ok [[gridBoxRect sampleBox]] ∧
    [[gridBoxRect sampleBox]] ≠
      [(gmTwo.predict 0).zipped.map fun p => gridBoxRect p.2.1] := by
  refine ⟨rfl, fun h => ?_⟩
  have hlen := congrArg (fun l => (l.headD []).length) h
  simp [gmTwo, Predictions.zipped] at hlen

/-- Claim C2 (amended): for every image in the collection the grid renderer
runs top-per-class detection — `model.predict_top`, not full `model.predict`
— and overlays every box that call returns, with its label and rounded
score. -/
theorem plot_prediction_grid_overlays {α : Type} [Inhabited α]
    (model : GridModel α) (display : α → α) (images : List α) (r c : ℕ)
    (cells : List (GridCell α)) (k : ℕ)
    (hok : plot_prediction_grid model display images (some (r, c)) = .ok cells)
    (hk : k < cells.length) :
    (cells.getD k default).render.rects =
      ((model.predict_top (images.getD k default)).zipped.map fun p =>
        gridBoxRect p.2.1) ∧
    (cells.getD k default).render.texts =
      ((model.predict_top (images.getD k default)).zipped.map fun p =>
        (labelText p.1 p.2.2, p.2.1.x0 + 5, p.2.1.y0 - 10)) := by
  by_cases hrc : r * c = images.length
  · have hcells : cells = gridCellsAux model display images (gridPositions r c) 0 := by
      simp [plot_prediction_grid, hrc] at hok
      exact hok.symm
    subst hcells
    have hk' : k < (gridPositions r c).length := by
      rwa [gridCellsAux_length] at hk
    rw [gridCellsAux_getD model display images _ 0 k hk', renderPreds_eq]
    constructor <;> simp
  · simp [plot_prediction_grid, hrc] at hok

/-- Witness for C2 (amended) on a concrete one-image grid. -/
theorem plot_prediction_grid_overlays_witness :
    ((gridCellsAux gmTwo id [0] (gridPositions 1 1) 0).getD 0 default).render.rects =
      ((gmTwo.predict_top ([0].getD 0 default)).zipped.map fun p =>
        gridBoxRect p.2.1) ∧
    ((gridCellsAux gmTwo id [0] (gridPositions 1 1) 0).getD 0 default).render.texts =
      ((gmTwo.predict_top ([0].getD 0 default)).zipped.map fun p =>
        (labelText p.1 p.2.2, p.2.1.x0 + 5, p.2.1.y0 - 10)) :=
  plot_prediction_grid_overlays gmTwo id [0] 1 1
    (gridCellsAux gmTwo id [0] (gridPositions 1 1) 0) 0
    (by simp [plot_prediction_grid]) (by decide)

/-- Claim C7 counterexample: a cell whose detection returns zero predictions
receives no title (`set_title` sits inside the per-prediction loop), so not
every cell is titled with its 1-based index. -/
theorem plot_prediction_grid_title_cex :
    (plot_prediction_grid gmNone id [0] (some (1, 1))).map
        (fun cells => cells.map fun cell => cell.render.title) =
      .ok [none] ∧
    (none : Option String) ≠ some ("Image " ++ toString 1) := by
  exact ⟨rfl, by decide⟩

/-- Claim C7 (amended): a grid cell whose detection call returns at least one
prediction is titled with its 1-based row-major index (`Image k` for the
`k`-th cell); a cell whose detection returns zero predictions receives no
title. -/
theorem plot_prediction_grid_titles {α : Type} [Inhabited α]
    (model : GridModel α) (display : α → α) (images : List α) (r c : ℕ)
    (cells : List (GridCell α)) (k : ℕ)
    (hok : plot_prediction_grid model display images (some (r, c)) = .ok cells)
    (hk : k < cells.length) :
    (cells.getD k default).render.title =
      if (model.predict_top (images.getD k default)).zipped.isEmpty then none
      else some ("Image " ++ toString (k + 1)) := by
  by_cases hrc : r * c = images.length
  · have hcells : cells = gridCellsAux model display images (gridPositions r c) 0 := by
      simp [plot_prediction_grid, hrc] at hok
      exact hok.symm
    subst hcells
    have hk' : k < (gridPositions r c).length := by
      rwa [gridCellsAux_length] at hk
    rw [gridCellsAux_getD model display images _ 0 k hk', renderPreds_eq]
    simp
  · simp [plot_prediction_grid, hrc] at hok

/-- Witness for C7 (amended) on a concrete one-image grid with one
prediction. -/
theorem plot_prediction_grid_titles_witness :
    ((gridCellsAux gmTwo id [0] (gridPositions 1 1) 0).getD 0 default).render.title =
      if (gmTwo.predict_top ([0].getD 0 default)).zipped.isEmpty then none
      else some ("Image " ++ toString (0 + 1)) :=
  plot_prediction_grid_titles gmTwo id [0] 1 1
    (gridCellsAux gmTwo id [0] (gridPositions 1 1) 0) 0
    (by simp [plot_prediction_grid]) (by decide)

/-- Claim C3 counterexample: a run aborted by a detector-call error is not
terminated by the quit signal, yet the frame counts do not balance — the
frame is read (`ret == True`), the detector raises before `out.write(frame)`
runs, and the exception propagates: one frame read, zero frames written. -/
theorem detect_video_frame_conservation_cex :
    (detect_video vmFail id (some sampleVideo) []).exit ≠ ExitKind.quitKey ∧
    (detect_video vmFail id (some sampleVideo) []).framesRead = 1 ∧
    (detect_video vmFail id (some sampleVideo) []).written.length = 0 :=
  ⟨(fun h => nomatch h), rfl, rfl⟩

/-- Claim C3 (amended): a run of `detect_video` that terminates normally —
neither cut short by the quit signal nor aborted by a propagating
detector-call error — writes exactly one frame to the sink per successfully
read source frame, in source order; each written frame is the annotated
version of its source frame and has the same dimensions.  (On a
detector-error run the last read frame is never written, as the
counterexample shows.) -/
theorem detect_video_frame_conservation (model : VideoModel)
    (tf : Frame → Frame) (input : Option VideoData) (keys : List ℕ)
    (hex : (detect_video model tf input keys).exit = ExitKind.normal) :
    (detect_video model tf input keys).framesRead =
      ((input.map VideoData.frames).getD []).length ∧
    (detect_video model tf input keys).written.length =
      (detect_video model tf input keys).framesRead ∧
    ∀ k, k < ((input.map VideoData.frames).getD []).length →
      ∃ p, model.predict_top
          (tf (((input.map VideoData.frames).getD []).getD k default)) = .ok p ∧
        (detect_video model tf input keys).written.getD k default =
          annotateFrame (detect_video model tf input keys).scaleFactor p
            (((input.map VideoData.frames).getD []).getD k default) ∧
        ((detect_video model tf input keys).written.getD k default).width =
          (((input.map VideoData.frames).getD []).getD k default).width ∧
        ((detect_video model tf input keys).written.getD k default).height =
          (((input.map VideoData.frames).getD []).getD k default).height := by
  rcases hv : videoLoop model tf
      (((min ((input.map VideoData.height).getD 0)
        ((input.map VideoData.width).getD 0) : ℕ) : ℚ) / 800)
      ((input.map VideoData.frames).getD []) keys [] 0 with ⟨w, m, res⟩
  cases res with
  | error e =>
    have hD : detect_video model tf input keys =
        { sinkCreated := true
          scaleFactor := ((min ((input.map VideoData.height).getD 0)
            ((input.map VideoData.width).getD 0) : ℕ) : ℚ) / 800
          framesRead := m, written := w
          sourceReleased := false, sinkReleased := false
          windowsDestroyed := false, exit := .raised e } := by
      simp only [detect_video]
      rw [hv]
    rw [hD] at hex
    simp at hex
  | ok b =>
    have hD : detect_video model tf input keys =
        { sinkCreated := true
          scaleFactor := ((min ((input.map VideoData.height).getD 0)
            ((input.map VideoData.width).getD 0) : ℕ) : ℚ) / 800
          framesRead := m, written := w
          sourceReleased := true, sinkReleased := true
          windowsDestroyed := true
          exit := if b then .quitKey else .normal } := by
      simp only [detect_video]
      rw [hv]
    cases b with
    | true => rw [hD] at hex; simp at hex
    | false =>
      obtain ⟨hm, anns, hw, hlen, hidx⟩ :=
        videoLoop_ok_false model tf _ _ keys [] w 0 m hv
      rw [hD]
      simp only at hm hw ⊢
      subst hm
      refine ⟨by omega, ?_, ?_⟩
      · simp [hw, hlen]
      · intro k hk
        obtain ⟨p, hp, ha⟩ := hidx k hk
        refine ⟨p, hp, ?_, ?_, ?_⟩
        · simp only [hw, List.nil_append]
          exact ha
        · simp only [hw, List.nil_append, ha, annotateFrame_width]
        · simp only [hw, List.nil_append, ha, annotateFrame_height]

/-- Witness for C3: a normal two-frame run with a detector that always
succeeds. -/
theorem detect_video_frame_conservation_witness :
    (detect_video vmOk id (some sampleVideo) []).framesRead =
      (((some sampleVideo).map VideoData.frames).getD []).length ∧
    (detect_video vmOk id (some sampleVideo) []).written.length =
      (detect_video vmOk id (some sampleVideo) []).framesRead ∧
    ∀ k, k < (((some sampleVideo).map VideoData.frames).getD []).length →
      ∃ p, vmOk.predict_top
          (id ((((some sampleVideo).map VideoData.frames).getD []).getD k default)) = .ok p ∧
        (detect_video vmOk id (some sampleVideo) []).written.getD k default =
          annotateFrame (detect_video vmOk id (some sampleVideo) []).scaleFactor p
            ((((some sampleVideo).map VideoData.frames).getD []).getD k default) ∧
        ((detect_video vmOk id (some sampleVideo) []).written.getD k default).width =
          ((((some sampleVideo).map VideoData.frames).getD []).getD k default).width ∧
        ((detect_video vmOk id (some sampleVideo) []).written.getD k default).height =
          ((((some sampleVideo).map VideoData.frames).getD []).getD k default).height :=
  detect_video_frame_conservation vmOk id (some sampleVideo) [] rfl

/-- Claim C9 counterexample: an exit caused by a detector-call error reaches
neither `video.release()` nor `out.release()` — the exception propagates past
them, so the resources are not released on that exit path. -/
theorem detect_video_release_cex :
    (detect_video vmFail id (some sampleVideo) []).exit =
      ExitKind.raised "detector failure" ∧
    (detect_video vmFail id (some sampleVideo) []).sourceReleased = false ∧
    (detect_video vmFail id (some sampleVideo) []).sinkReleased = false :=
  ⟨rfl, rfl, rfl⟩

/-- Claim C9 (amended): the sink is acquired at the start of every call, and
source, sink and windows are released on the normal-completion and early-quit
exit paths; after an early-quit signal no further frames are read (the read
count stops exactly one past the first quit key event).  A detector-call
error, however, propagates without releasing either resource in this layer. -/
theorem detect_video_resource_discipline (model : VideoModel)
    (tf : Frame → Frame) (input : Option VideoData) (keys : List ℕ) :
    (detect_video model tf input keys).sinkCreated = true ∧
    ((detect_video model tf input keys).exit = ExitKind.normal ∨
      (detect_video model tf input keys).exit = ExitKind.quitKey →
      (detect_video model tf input keys).sourceReleased = true ∧
      (detect_video model tf input keys).sinkReleased = true ∧
      (detect_video model tf input keys).windowsDestroyed = true) ∧
    (∀ e, (detect_video model tf input keys).exit = ExitKind.raised e →
      (detect_video model tf input keys).sourceReleased = false ∧
      (detect_video model tf input keys).sinkReleased = false) ∧
    ((detect_video model tf input keys).exit = ExitKind.quitKey →
      ∃ k, (detect_video model tf input keys).framesRead = k + 1 ∧
        k < ((input.map VideoData.frames).getD []).length ∧
        keys.getD k 255 % 256 = 113 ∧
        ∀ j, j < k → keys.getD j 255 % 256 ≠ 113) := by
  rcases hv : videoLoop model tf
      (((min ((input.map VideoData.height).getD 0)
        ((input.map VideoData.width).getD 0) : ℕ) : ℚ) / 800)
      ((input.map VideoData.frames).getD []) keys [] 0 with ⟨w, m, res⟩
  cases res with
  | error e =>
    have hD : detect_video model tf input keys =
        { sinkCreated := true
          scaleFactor := ((min ((input.map VideoData.height).getD 0)
            ((input.map VideoData.width).getD 0) : ℕ) : ℚ) / 800
          framesRead := m, written := w
          sourceReleased := false, sinkReleased := false
          windowsDestroyed := false, exit := .raised e } := by
      simp only [detect_video]
      rw [hv]
    rw [hD]
    simp
  | ok b =>
    have hD : detect_video model tf input keys =
        { sinkCreated := true
          scaleFactor := ((min ((input.map VideoData.height).getD 0)
            ((input.map VideoData.width).getD 0) : ℕ) : ℚ) / 800
          framesRead := m, written := w
          sourceReleased := true, sinkReleased := true
          windowsDestroyed := true
          exit := if b then .quitKey else .normal } := by
      simp only [detect_video]
      rw [hv]
    rw [hD]
    cases b with
    | false => simp
    | true =>
      refine ⟨rfl, fun _ => ⟨rfl, rfl, rfl⟩, fun e he => absurd he (by simp),
        fun _ => ?_⟩
      obtain ⟨k, hm, hk, hquit, hbefore⟩ :=
        videoLoop_ok_true model tf _ _ keys [] w 0 m hv
      exact ⟨k, show m = k + 1 by omega, hk, hquit, hbefore⟩

/-- Witness for C9 (amended): a quit-key run releases everything and reads no
frame past the signal, and a detector-error run releases nothing. -/
theorem detect_video_resource_discipline_witness :
    ((detect_video vmOk id (some sampleVideo) [113]).sourceReleased = true ∧
      (detect_video vmOk id (some sampleVideo) [113]).sinkReleased = true ∧
      (detect_video vmOk id (some sampleVideo) [113]).windowsDestroyed = true) ∧
    (∃ k, (detect_video vmOk id (some sampleVideo) [113]).framesRead = k + 1 ∧
      k < (((some sampleVideo).map VideoData.frames).getD []).length ∧
      [113].getD k 255 % 256 = 113 ∧
      ∀ j, j < k → [113].getD j 255 % 256 ≠ 113) ∧
    ((detect_video vmFail id (some sampleVideo) []).sourceReleased = false ∧
      (detect_video vmFail id (some sampleVideo) []).sinkReleased = false) :=
  ⟨(detect_video_resource_discipline vmOk id (some sampleVideo) [113]).2.1
      (Or.inr rfl),
   (detect_video_resource_discipline vmOk id (some sampleVideo) [113]).2.2.2 rfl,
   (detect_video_resource_discipline vmFail id (some sampleVideo) []).2.2.1
      "detector failure" rfl⟩

end Detecto
